import Mathlib

/-!
Shallow embedding of the core of the `solana-program-library` fork under
verification: the token-lending program (`token-lending/program/src/{math,
state, instruction, processor}.rs`), the governance `process_execute`
handler and the timelock `process_vote` handler.

Conventions of the embedding:
* machine integers (`u64`, `U256`) are modelled as `Nat`; arithmetic that
  aborts in Rust (`U256` division by zero, `U256`/`u64` subtraction
  underflow) is modelled as `Except Err _` with explicit error values;
* 32-byte public keys are opaque identifiers, modelled as `Nat`;
* SPL token accounts and mints only contribute the fields the handlers
  read (`amount`, `mint`, `supply`), which are passed as explicit inputs;
* host-boundary checks that touch no modelled state (rent exemption,
  program-derived-address checks, token-program ownership, CPI calls into
  the token program) are represented by explicit boolean inputs where the
  surrounding control flow depends on them, and elided otherwise.

All intermediate `U256` values arising from packable on-chain state
(raw scaled values < 2^128, token amounts and slots < 2^64) stay far below
2^256, so the unbounded `Nat` model of `U256` is exact on the domain the
theorems quantify over.
-/

/-- Opaque 32-byte public key, modelled as a plain identifier. -/
abbrev Pubkey := Nat

/-- Error outcomes of the embedded handlers.  Lending and governance error
codes are merged into one type; `divByZero` and `subUnderflow` stand for
the aborts of the Rust `U256`/`u64` arithmetic. -/
inductive Err where
  | invalidInput
  | invalidInstruction
  | lendingMarketMismatch
  | alreadyInUse
  | divByZero
  | subUnderflow
  | numericalOverflow
  | tooEarlyToExecute
  | alreadyExecuted
  | invalidGovernanceKey
  | tooManyAccounts
  | invalidProposalState
  | instructionUnpackError
  | executeFailed
  | notInited
  | accountMismatch
  | invalidTimelockAuthority
  | tokenOpFailed
  | notVoting
deriving DecidableEq, Repr

/-- Checked `u64` subtraction: Rust `a - b` on `u64` aborts on underflow. -/
def checkedSub (a b : Nat) : Except Err Nat :=
  if a < b then .error .subUnderflow else .ok (a - b)

/-- Checked `u64` subtraction whose `None` case is mapped to a caller
chosen error (the `checked_sub` + match pattern of the governance code). -/
def checkedSubOr (a b : Nat) (e : Err) : Except Err Nat :=
  if a < b then .error e else .ok (a - b)

/-- Number of fractional digits of `Decimal` (`SCALE` in math.rs). -/
def SCALE : Nat := 18

/-- Scaling factor `10^SCALE` (`Decimal::scaler` in math.rs). -/
def scaler : Nat := 10 ^ SCALE

/-- Fixed-point decimal from math.rs: an integer `raw` standing for the
value `raw / 10^18`, backed in Rust by a 256-bit unsigned integer. -/
structure Decimal where
  raw : Nat
deriving DecidableEq, Repr

namespace Decimal

/-- Conversion `From<u64>`: `scaler * val`. -/
def fromNat (val : Nat) : Decimal := ⟨scaler * val⟩

/-- Constructor `Decimal::new(val, scale)`: `scaler / 10^scale * val`. -/
def new (val scale : Nat) : Decimal := ⟨scaler / 10 ^ scale * val⟩

/-- Truncating conversion `Decimal::round_u64`: `raw / scaler`. -/
def round_u64 (a : Decimal) : Nat := a.raw / scaler

/-- Raw addition (`impl Add`). -/
def add (a b : Decimal) : Decimal := ⟨a.raw + b.raw⟩

/-- Raw subtraction (`impl Sub`); the Rust `U256` subtraction aborts on
underflow. -/
def sub (a b : Decimal) : Except Err Decimal :=
  if a.raw < b.raw then .error .subUnderflow else .ok ⟨a.raw - b.raw⟩

/-- Truncating multiplication (`impl Mul`): `a.raw * b.raw / scaler`. -/
def mul (a b : Decimal) : Decimal := ⟨a.raw * b.raw / scaler⟩

/-- Truncating division (`impl Div`): `scaler * a.raw / b.raw`; the Rust
`U256` division aborts when the divisor is zero. -/
def div (a b : Decimal) : Except Err Decimal :=
  if b.raw = 0 then .error .divByZero else .ok ⟨scaler * a.raw / b.raw⟩

end Decimal

/-- Constant from state.rs: collateral starts at a 5:1 ratio. -/
def INITIAL_COLLATERAL_RATE : Nat := 5

/-- Host constants (solana `clock` module, values of the pinned SDK). -/
def DEFAULT_TICKS_PER_SECOND : Nat := 160

/-- Ticks per slot of the pinned SDK. -/
def DEFAULT_TICKS_PER_SLOT : Nat := 64

/-- Seconds per day of the pinned SDK. -/
def SECONDS_PER_DAY : Nat := 86400

/-- Constant from state.rs: number of slots per year. -/
def SLOTS_PER_YEAR : Nat :=
  DEFAULT_TICKS_PER_SECOND / DEFAULT_TICKS_PER_SLOT * SECONDS_PER_DAY * 365

/-- Lending-market reserve record (state.rs `Reserve`); the `is_initialized`
flag is a concern of the host unpack path and is omitted here. -/
structure Reserve where
  lending_market : Pubkey
  liquidity_supply : Pubkey
  liquidity_mint : Pubkey
  collateral_supply : Pubkey
  collateral_mint : Pubkey
  dex_market : Option Pubkey
  dex_market_price : Nat
  dex_market_price_updated_slot : Nat
  cumulative_borrow_rate : Decimal
  total_borrows : Decimal
  borrow_state_update_slot : Nat
deriving DecidableEq, Repr

namespace Reserve

/-- Borrow-rate curve (state.rs `current_borrow_rate`).  The zero-total-
supply guard is commented out in the source, so the utilization division
is unguarded: `total_borrows / (total_borrows + liquidity)` aborts at 0/0. -/
def current_borrow_rate (r : Reserve) (liquidity_supply_amount : Nat) :
    Except Err Decimal := do
  let total_liquidity := Decimal.fromNat liquidity_supply_amount
  let total_supply := r.total_borrows.add total_liquidity
  let optimal_utilization_rate := Decimal.new 80 2
  let optimal_borrow_rate := Decimal.new 4 2
  let base_borrow_rate := Decimal.new 0 2
  let max_borrow_rate := Decimal.new 30 2
  let utilization_rate ← r.total_borrows.div total_supply
  if utilization_rate.raw < optimal_utilization_rate.raw then
    let normalized_rate ← utilization_rate.div optimal_utilization_rate
    let spread ← optimal_borrow_rate.sub base_borrow_rate
    return (normalized_rate.mul spread).add base_borrow_rate
  else
    let above ← utilization_rate.sub optimal_utilization_rate
    let room ← (Decimal.fromNat 1).sub optimal_utilization_rate
    let normalized_rate ← above.div room
    let spread ← max_borrow_rate.sub optimal_borrow_rate
    return (normalized_rate.mul spread).add optimal_borrow_rate

/-- Cumulative-rate integrator (state.rs `update_cumulative_rate`).
Returns the new reserve together with the value the Rust method returns
(the post-update cumulative borrow rate). -/
def update_cumulative_rate (r : Reserve) (slot : Nat)
    (liquidity_supply_amount : Nat) : Except Err (Reserve × Decimal) :=
  if r.borrow_state_update_slot = 0 then
    let r1 := { r with
      borrow_state_update_slot := slot
      cumulative_borrow_rate := Decimal.fromNat 1 }
    .ok (r1, r1.cumulative_borrow_rate)
  else do
    let borrow_rate ← r.current_borrow_rate liquidity_supply_amount
    let elapsed ← checkedSub slot r.borrow_state_update_slot
    let slots_elapsed := Decimal.fromNat elapsed
    let interest_rate ←
      (slots_elapsed.mul borrow_rate).div (Decimal.fromNat SLOTS_PER_YEAR)
    let accrued_interest := r.total_borrows.mul interest_rate
    let r1 := { r with
      total_borrows := r.total_borrows.add accrued_interest
      cumulative_borrow_rate :=
        r.cumulative_borrow_rate.mul ((Decimal.fromNat 1).add interest_rate)
      borrow_state_update_slot := slot }
    .ok (r1, r1.cumulative_borrow_rate)

/-- Collateral exchange rate (state.rs `collateral_exchange_rate`). -/
def collateral_exchange_rate (r : Reserve) (slot : Nat)
    (liquidity_supply_amount collateral_mint_supply : Nat) :
    Except Err Decimal :=
  if r.borrow_state_update_slot ≠ slot then
    .error .invalidInput
  else if collateral_mint_supply = 0 then
    .ok (Decimal.fromNat INITIAL_COLLATERAL_RATE)
  else
    let collateral_supply := Decimal.fromNat collateral_mint_supply
    let liquidity_supply := Decimal.fromNat liquidity_supply_amount
    collateral_supply.div (r.total_borrows.add liquidity_supply)

/-- Conversion collateral → liquidity (state.rs `collateral_to_liquidity`). -/
def collateral_to_liquidity (r : Reserve) (slot : Nat)
    (liquidity_supply_amount collateral_mint_supply collateral_amount : Nat) :
    Except Err Decimal := do
  let exchange_rate ←
    r.collateral_exchange_rate slot liquidity_supply_amount collateral_mint_supply
  (Decimal.fromNat collateral_amount).div exchange_rate

/-- Conversion liquidity → collateral (state.rs `liquidity_to_collateral`). -/
def liquidity_to_collateral (r : Reserve) (slot : Nat)
    (liquidity_supply_amount collateral_mint_supply liquidity_amount : Nat) :
    Except Err Decimal := do
  let exchange_rate ←
    r.collateral_exchange_rate slot liquidity_supply_amount collateral_mint_supply
  return (Decimal.fromNat liquidity_amount).mul exchange_rate

/-- Bookkeeping `add_borrow` from state.rs. -/
def add_borrow (r : Reserve) (borrow_amount : Decimal) : Reserve :=
  { r with total_borrows := r.total_borrows.add borrow_amount }

/-- Bookkeeping `subtract_repay` from state.rs; the `U256` subtraction
aborts on underflow. -/
def subtract_repay (r : Reserve) (repay_amount : Decimal) :
    Except Err Reserve := do
  let t ← r.total_borrows.sub repay_amount
  return { r with total_borrows := t }

end Reserve

/-- Borrow obligation record (state.rs `Obligation`). -/
structure Obligation where
  last_update_slot : Nat
  collateral_amount : Nat
  collateral_supply : Pubkey
  cumulative_borrow_rate : Decimal
  borrow_amount : Decimal
  borrow_reserve : Pubkey
  token_mint : Pubkey
deriving DecidableEq, Repr

/-- Interest accrual (state.rs `Obligation::accrue_interest`). -/
def Obligation.accrue_interest (o : Obligation) (slot : Nat)
    (reserve : Reserve) : Except Err Obligation :=
  if slot ≠ reserve.borrow_state_update_slot then
    .error .invalidInput
  else do
    let elapsed ← checkedSub slot o.last_update_slot
    let slots_elapsed := Decimal.fromNat elapsed
    let ratio ← reserve.cumulative_borrow_rate.div o.cumulative_borrow_rate
    let borrow_rate ← ratio.sub (Decimal.fromNat 1)
    let yearly_interest := o.borrow_amount.mul borrow_rate
    let accrued_interest ←
      (slots_elapsed.mul yearly_interest).div (Decimal.fromNat SLOTS_PER_YEAR)
    return { o with
      borrow_amount := o.borrow_amount.add accrued_interest
      cumulative_borrow_rate := reserve.cumulative_borrow_rate
      last_update_slot := slot }

/-! ## Order-book model (processor.rs `Side`, `Fill`, `next_order`,
`exchange_with_order_book`, `deposit_to_borrow`)

The serum critbit slab is modelled as a list of leaves; `find_max` /
`find_min` select the leaf of extremal key (slab keys are unique).  The
Rust loop `while input_quantity > 0` never mutates the book, so every pass
re-reads the same extremal leaf; each productive pass consumes at least
one input unit, so a fuel counter initialised to the input quantity bounds
the iteration count.  A pass whose (post-swap) quote quantity is zero
aborts on the `Decimal` division by zero before it can loop forever. -/

/-- Order-book side (processor.rs `Side`). -/
inductive Side where
  | bid
  | ask
deriving DecidableEq, Repr

/-- Fill unit selector (processor.rs `Fill`). -/
inductive Fill where
  | base
  | quote
deriving DecidableEq, Repr

/-- Whether a fill converts base units into quote units (the swapped
case of the source's `Fill::Base`). -/
def Fill.isBase : Fill → Bool
  | Fill.base => true
  | Fill.quote => false

/-- A slab leaf: search key, 64-bit price and base quantity. -/
structure OrderLeaf where
  key : Nat
  price : Nat
  quantity : Nat
deriving DecidableEq, Repr

/-- Leaf selection (processor.rs `next_order`): maximal key for bids,
minimal key for asks; an empty book yields `InvalidInput`. -/
def next_order (orders : List OrderLeaf) (side : Side) : Option OrderLeaf :=
  match side with
  | Side.bid => orders.foldl (fun acc l =>
      match acc with
      | none => some l
      | some m => if m.key < l.key then some l else some m) none
  | Side.ask => orders.foldl (fun acc l =>
      match acc with
      | none => some l
      | some m => if l.key < m.key then some l else some m) none

/-- Modulus of 64-bit machine arithmetic. -/
def U64_MOD : Nat := 2 ^ 64

/-- One pass of the fill loop body plus recursion (processor.rs
`exchange_with_order_book` loop).  `fuel` starts equal to the input
quantity; every recursive call consumes at least one input unit, so the
fuel-exhausted branch is unreachable from `exchange_with_order_book`. -/
def exchange_loop (orders : List OrderLeaf) (side : Side) (fill : Fill) :
    Nat → Nat → Decimal → Except Err Decimal
  | _, 0, out => .ok out
  | 0, _ + 1, _ => .error Err.invalidInput
  | fuel + 1, input + 1, out => do
    let leaf ← match next_order orders side with
      | none => Except.error Err.invalidInput
      | some l => Except.ok l
    let base_quantity := leaf.quantity
    let quote_quantity := base_quantity * leaf.price % U64_MOD
    let bq := if fill = Fill.base then quote_quantity else base_quantity
    let qq := if fill = Fill.base then base_quantity else quote_quantity
    let fill_quantity := min (input + 1) qq
    let contrib ←
      ((Decimal.fromNat fill_quantity).mul (Decimal.fromNat bq)).div
        (Decimal.fromNat qq)
    exchange_loop orders side fill fuel (input + 1 - fill_quantity)
      (out.add contrib)

/-- Order-book conversion (processor.rs `exchange_with_order_book`):
run the fill loop on the full input, then truncate the accumulated
`Decimal` to an integer. -/
def exchange_with_order_book (orders : List OrderLeaf) (side : Side)
    (fill : Fill) (input_quantity : Nat) : Except Err Nat :=
  (exchange_loop orders side fill input_quantity input_quantity
    (Decimal.fromNat 0)).map Decimal.round_u64

/-- Conversion of a deposit into a borrow through the bound order book
(processor.rs `deposit_to_borrow`); the scratch-memory copy and zeroing
are data plumbing and elided. -/
def deposit_to_borrow (deposit_amount : Nat) (orders : List OrderLeaf)
    (dex_market_quote_mint : Pubkey) (deposit_reserve : Reserve) :
    Except Err Nat :=
  let fs :=
    if deposit_reserve.liquidity_mint = dex_market_quote_mint then
      (Fill.quote, Side.bid)
    else
      (Fill.base, Side.ask)
  exchange_with_order_book orders fs.2 fs.1 deposit_amount

/-- Side selection as claim C1 (spec section 4.4.3) words it: when the
deposit reserve's liquidity mint equals the market's quote mint, fill from
the ask side converting base units into quote units; otherwise from the
bid side converting quote units into base units.  Kept only to be compared
against `deposit_to_borrow`, which is translated from the source. -/
def deposit_to_borrow_claimC1 (deposit_amount : Nat)
    (orders : List OrderLeaf) (dex_market_quote_mint : Pubkey)
    (deposit_reserve : Reserve) : Except Err Nat :=
  let fs :=
    if deposit_reserve.liquidity_mint = dex_market_quote_mint then
      (Fill.base, Side.ask)
    else
      (Fill.quote, Side.bid)
  exchange_with_order_book orders fs.2 fs.1 deposit_amount

/-- Specification-style rendition of one order-book conversion (amended
wording of claim C1): repeatedly take the extremal leaf of the chosen
side, consume `fill = min(remaining, quote)` input units and accumulate
the scaled contribution `fill * base * scaler / quote` (the `Decimal`
value `fill * base / quote`), where `base`/`quote` are the leaf's base and
quote quantities, swapped when converting base units into quote units;
finally truncate the accumulated sum to an integer. -/
def spec_fill_walk (orders : List OrderLeaf) (side : Side)
    (baseToQuote : Bool) : Nat → Nat → Nat → Except Err Nat
  | _, 0, acc => .ok (acc / scaler)
  | 0, _ + 1, _ => .error Err.invalidInput
  | fuel + 1, rem + 1, acc =>
    match next_order orders side with
    | none => .error Err.invalidInput
    | some leaf =>
      let lq := leaf.quantity
      let base := if baseToQuote then lq * leaf.price % U64_MOD else lq
      let quote := if baseToQuote then lq else lq * leaf.price % U64_MOD
      if quote = 0 then .error Err.divByZero
      else
        let fq := min (rem + 1) quote
        spec_fill_walk orders side baseToQuote fuel (rem + 1 - fq)
          (acc + fq * base * scaler / quote)

/-! ## Lending handlers (processor.rs)

Each handler is a pure function from the records and token-account fields
it reads to the records it packs back plus the token amounts it moves.
Host checks that involve no modelled data (rent exemption, derived
authority addresses, token-program ownership, the CPI calls themselves)
are elided: in the source they can only fail the instruction without
touching modelled state. -/

/-- Guard helper: `check c e` fails with `e` unless `c` holds, mirroring
the source's early-return `if` guards. -/
def check (c : Prop) [Decidable c] (e : Err) : Except Err Unit :=
  if c then .ok () else .error e

/-- Inputs of `process_deposit`: the stored reserve record, the keys of
the provided accounts, the fields read from the liquidity-supply token
account and the collateral mint, and the clock slot. -/
structure DepositCtx where
  liquidity_amount : Nat
  reserve : Reserve
  liquidity_input_key : Pubkey
  liquidity_supply_key : Pubkey
  collateral_output_key : Pubkey
  collateral_mint_key : Pubkey
  liquidity_supply_amount : Nat
  collateral_mint_supply : Nat
  slot : Nat
deriving DecidableEq, Repr

/-- Outputs of `process_deposit`: the reserve record as stored after the
handler and the two token movements it orders. -/
structure DepositResult where
  packed_reserve : Reserve
  liquidity_transfer_amount : Nat
  collateral_mint_amount : Nat
deriving DecidableEq, Repr

/-- Deposit handler (processor.rs `process_deposit`).  The cumulative-rate
update runs on a local copy of the reserve used only to price the
collateral; the source contains no `Reserve::pack` call, so the stored
record is returned unchanged. -/
def process_deposit (c : DepositCtx) : Except Err DepositResult := do
  let _ ← check (c.liquidity_supply_key = c.reserve.liquidity_supply ∧
    c.collateral_mint_key = c.reserve.collateral_mint) Err.invalidInput
  let _ ← check (c.liquidity_supply_key ≠ c.liquidity_input_key)
    Err.invalidInput
  let _ ← check (c.collateral_output_key ≠ c.reserve.collateral_supply)
    Err.invalidInput
  let (reserve1, _) ←
    c.reserve.update_cumulative_rate c.slot c.liquidity_supply_amount
  let collateral_amount ← reserve1.liquidity_to_collateral c.slot
    c.liquidity_supply_amount c.collateral_mint_supply c.liquidity_amount
  return { packed_reserve := c.reserve
           liquidity_transfer_amount := c.liquidity_amount
           collateral_mint_amount := collateral_amount.round_u64 }

/-- Inputs of `process_withdraw`, in the same shape as `DepositCtx`. -/
structure WithdrawCtx where
  collateral_amount : Nat
  reserve : Reserve
  liquidity_output_key : Pubkey
  liquidity_supply_key : Pubkey
  collateral_input_key : Pubkey
  collateral_mint_key : Pubkey
  liquidity_supply_amount : Nat
  collateral_mint_supply : Nat
  slot : Nat
deriving DecidableEq, Repr

/-- Outputs of `process_withdraw`. -/
structure WithdrawResult where
  packed_reserve : Reserve
  liquidity_transfer_amount : Nat
  collateral_burn_amount : Nat
deriving DecidableEq, Repr

/-- Withdraw handler (processor.rs `process_withdraw`).  Unlike the
deposit handler it ends with `Reserve::pack`, storing the updated copy. -/
def process_withdraw (c : WithdrawCtx) : Except Err WithdrawResult := do
  let _ ← check (c.liquidity_supply_key = c.reserve.liquidity_supply ∧
    c.collateral_mint_key = c.reserve.collateral_mint) Err.invalidInput
  let _ ← check (c.liquidity_supply_key ≠ c.liquidity_output_key)
    Err.invalidInput
  let _ ← check (c.collateral_input_key ≠ c.reserve.collateral_supply)
    Err.invalidInput
  let (reserve1, _) ←
    c.reserve.update_cumulative_rate c.slot c.liquidity_supply_amount
  let liquidity_withdraw_amount ← reserve1.collateral_to_liquidity c.slot
    c.liquidity_supply_amount c.collateral_mint_supply c.collateral_amount
  return { packed_reserve := reserve1
           liquidity_transfer_amount := liquidity_withdraw_amount.round_u64
           collateral_burn_amount := c.collateral_amount }

/-- Inputs of `process_borrow`: the two stored reserve records, the keys
of the provided accounts, the token-account fields each step reads, the
order-book leaves with the dex market's quote mint, the prior contents of
the obligation account, and the clock slot. -/
structure BorrowCtx where
  collateral_amount : Nat
  deposit_reserve : Reserve
  borrow_reserve : Reserve
  deposit_reserve_key : Pubkey
  borrow_reserve_key : Pubkey
  borrow_reserve_liquidity_supply_key : Pubkey
  obligation_token_mint_key : Pubkey
  deposit_reserve_collateral_supply_mint : Pubkey
  deposit_reserve_liquidity_supply_amount : Nat
  deposit_reserve_collateral_mint_supply : Nat
  borrow_reserve_liquidity_supply_amount : Nat
  dex_orders : List OrderLeaf
  dex_market_quote_mint : Pubkey
  old_obligation : Obligation
  slot : Nat
deriving DecidableEq, Repr

/-- Outputs of `process_borrow`: the records packed back and the amounts
moved or minted. -/
structure BorrowResult where
  borrow_reserve : Reserve
  obligation : Obligation
  deposit_amount : Nat
  borrow_amount : Nat
deriving DecidableEq, Repr

/-- Borrow handler (processor.rs `process_borrow`).  The deposit reserve
is read immutably: no cumulative-rate update runs on it, so pricing the
collateral through `collateral_to_liquidity` requires its stored
`borrow_state_update_slot` to already equal the clock slot.  The borrow
reserve's update runs after the borrow amount is computed, and its
returned rate is recorded in the new obligation. -/
def process_borrow (c : BorrowCtx) : Except Err BorrowResult := do
  let _ ← check
    (c.deposit_reserve.lending_market = c.borrow_reserve.lending_market)
    Err.lendingMarketMismatch
  let _ ← check
    (c.borrow_reserve.liquidity_supply = c.borrow_reserve_liquidity_supply_key)
    Err.invalidInput
  let _ ← check
    (c.deposit_reserve.collateral_mint = c.deposit_reserve_collateral_supply_mint)
    Err.invalidInput
  let deposit_amount_dec ← c.deposit_reserve.collateral_to_liquidity c.slot
    c.deposit_reserve_liquidity_supply_amount
    c.deposit_reserve_collateral_mint_supply c.collateral_amount
  let deposit_amount := deposit_amount_dec.round_u64
  let borrow_amount ← deposit_to_borrow deposit_amount c.dex_orders
    c.dex_market_quote_mint c.deposit_reserve
  let (borrow_reserve1, cumulative_borrow_rate) ←
    c.borrow_reserve.update_cumulative_rate c.slot
      c.borrow_reserve_liquidity_supply_amount
  let borrow_reserve2 :=
    borrow_reserve1.add_borrow (Decimal.fromNat borrow_amount)
  let _ ← check (c.old_obligation.last_update_slot = 0) Err.alreadyInUse
  let obligation : Obligation :=
    { last_update_slot := c.slot
      collateral_amount := c.collateral_amount
      collateral_supply := c.deposit_reserve_key
      cumulative_borrow_rate := cumulative_borrow_rate
      borrow_amount := Decimal.fromNat borrow_amount
      borrow_reserve := c.borrow_reserve_key
      token_mint := c.obligation_token_mint_key }
  return { borrow_reserve := borrow_reserve2
           obligation := obligation
           deposit_amount := deposit_amount
           borrow_amount := borrow_amount }

/-- Borrow handler as claim C2 words it: the cumulative-rate update of
section 4.3.2 runs on both the deposit reserve and the borrow reserve
before the borrow amount is computed.  Kept only to be compared against
`process_borrow`, which is translated from the source. -/
def process_borrow_claimC2 (c : BorrowCtx) : Except Err BorrowResult := do
  let _ ← check
    (c.deposit_reserve.lending_market = c.borrow_reserve.lending_market)
    Err.lendingMarketMismatch
  let _ ← check
    (c.borrow_reserve.liquidity_supply = c.borrow_reserve_liquidity_supply_key)
    Err.invalidInput
  let _ ← check
    (c.deposit_reserve.collateral_mint = c.deposit_reserve_collateral_supply_mint)
    Err.invalidInput
  let (deposit_reserve1, _) ←
    c.deposit_reserve.update_cumulative_rate c.slot
      c.deposit_reserve_liquidity_supply_amount
  let (borrow_reserve1, cumulative_borrow_rate) ←
    c.borrow_reserve.update_cumulative_rate c.slot
      c.borrow_reserve_liquidity_supply_amount
  let deposit_amount_dec ← deposit_reserve1.collateral_to_liquidity c.slot
    c.deposit_reserve_liquidity_supply_amount
    c.deposit_reserve_collateral_mint_supply c.collateral_amount
  let deposit_amount := deposit_amount_dec.round_u64
  let borrow_amount ← deposit_to_borrow deposit_amount c.dex_orders
    c.dex_market_quote_mint deposit_reserve1
  let borrow_reserve2 :=
    borrow_reserve1.add_borrow (Decimal.fromNat borrow_amount)
  let _ ← check (c.old_obligation.last_update_slot = 0) Err.alreadyInUse
  let obligation : Obligation :=
    { last_update_slot := c.slot
      collateral_amount := c.collateral_amount
      collateral_supply := c.deposit_reserve_key
      cumulative_borrow_rate := cumulative_borrow_rate
      borrow_amount := Decimal.fromNat borrow_amount
      borrow_reserve := c.borrow_reserve_key
      token_mint := c.obligation_token_mint_key }
  return { borrow_reserve := borrow_reserve2
           obligation := obligation
           deposit_amount := deposit_amount
           borrow_amount := borrow_amount }

/-- Inputs of `process_repay`. -/
structure RepayCtx where
  liquidity_amount : Nat
  obligation : Obligation
  repay_reserve : Reserve
  withdraw_reserve : Reserve
  repay_reserve_key : Pubkey
  withdraw_reserve_key : Pubkey
  obligation_mint_key : Pubkey
  liquidity_supply_key : Pubkey
  collateral_supply_key : Pubkey
  liquidity_supply_amount : Nat
  obligation_mint_supply : Nat
  slot : Nat
deriving DecidableEq, Repr

/-- Outputs of `process_repay`. -/
structure RepayResult where
  obligation : Obligation
  repay_reserve : Reserve
  repay_amount : Nat
  collateral_withdraw_amount : Nat
  obligation_token_amount : Nat
deriving DecidableEq, Repr

/-- Repay handler (processor.rs `process_repay`). -/
def process_repay (c : RepayCtx) : Except Err RepayResult := do
  let _ ← check (c.obligation.token_mint = c.obligation_mint_key)
    Err.invalidInput
  let _ ← check (c.obligation.borrow_reserve = c.repay_reserve_key)
    Err.invalidInput
  let _ ← check (c.obligation.collateral_supply = c.withdraw_reserve_key)
    Err.invalidInput
  let _ ← check
    (c.repay_reserve.lending_market = c.withdraw_reserve.lending_market)
    Err.lendingMarketMismatch
  let _ ← check (c.repay_reserve.liquidity_supply = c.liquidity_supply_key)
    Err.invalidInput
  let _ ← check
    (c.withdraw_reserve.collateral_supply = c.collateral_supply_key)
    Err.invalidInput
  let (repay_reserve1, _) ←
    c.repay_reserve.update_cumulative_rate c.slot c.liquidity_supply_amount
  let obligation1 ← c.obligation.accrue_interest c.slot repay_reserve1
  let borrowed_amount := obligation1.borrow_amount.round_u64
  let repay_amount := min c.liquidity_amount borrowed_amount
  let repay_pct ←
    (Decimal.fromNat repay_amount).div obligation1.borrow_amount
  let collateral_withdraw_amount :=
    (repay_pct.mul (Decimal.fromNat obligation1.collateral_amount)).round_u64
  let obligation_token_amount :=
    (repay_pct.mul (Decimal.fromNat c.obligation_mint_supply)).round_u64
  let new_borrow ← obligation1.borrow_amount.sub (Decimal.fromNat repay_amount)
  let new_collateral ←
    checkedSub obligation1.collateral_amount collateral_withdraw_amount
  let obligation2 := { obligation1 with
    last_update_slot := c.slot
    borrow_amount := new_borrow
    collateral_amount := new_collateral }
  let repay_reserve2 ←
    repay_reserve1.subtract_repay (Decimal.fromNat repay_amount)
  return { obligation := obligation2
           repay_reserve := repay_reserve2
           repay_amount := repay_amount
           collateral_withdraw_amount := collateral_withdraw_amount
           obligation_token_amount := obligation_token_amount }

/-! ## Instruction codec (instruction.rs) and SetPrice -/

/-- Instruction set of the lending program (instruction.rs
`LendingInstruction`). -/
inductive LendingInstruction where
  | initLendingMarket
  | initReserve
  | deposit (liquidity_amount : Nat)
  | withdraw (liquidity_amount : Nat)
  | borrow (collateral_amount : Nat)
  | repay (liquidity_amount : Nat)
  | setPrice
deriving DecidableEq, Repr

/-- Little-endian `u64` parse of the first 8 bytes (instruction.rs
`unpack_u64`). -/
def unpack_u64 (input : List Nat) : Except Err (Nat × List Nat) :=
  if 8 ≤ input.length then
    .ok ((input.take 8).reverse.foldl (fun acc b => acc * 256 + b) 0,
      input.drop 8)
  else
    .error Err.invalidInstruction

/-- Instruction decoder (instruction.rs `LendingInstruction::unpack`):
split off the tag byte, then parse the tag-specific payload. -/
def LendingInstruction.unpack (input : List Nat) :
    Except Err LendingInstruction :=
  match input with
  | [] => .error Err.invalidInstruction
  | tag :: rest =>
    match tag with
    | 0 => .ok .initLendingMarket
    | 1 => .ok .initReserve
    | 2 => do
      let (liquidity_amount, _) ← unpack_u64 rest
      return .deposit liquidity_amount
    | 3 => do
      let (liquidity_amount, _) ← unpack_u64 rest
      return .withdraw liquidity_amount
    | 4 => do
      let (collateral_amount, _) ← unpack_u64 rest
      return .borrow collateral_amount
    | 5 => do
      let (liquidity_amount, _) ← unpack_u64 rest
      return .repay liquidity_amount
    | 6 => .ok .setPrice
    | _ => .error Err.invalidInstruction

/-- Modelled from the spec: the SetPrice handler.  The processor variant
under src predates the SetPrice instruction (its dispatcher has no arm
for tag 6), so only the instruction variant, its account list and the
section 4.2 midpoint rule document it.  Per spec sections 4.2 and 4.3.6
the handler reads the best bid (extremal leaf of the bids slab) and best
ask (extremal leaf of the asks slab), forms the truncated midpoint
`(best_bid + best_ask) / 2`, and writes the reserve's `dex_market_price`
and `dex_market_price_updated_slot`. -/
def process_set_price (r : Reserve) (bids asks : List OrderLeaf)
    (slot : Nat) : Except Err Reserve := do
  let bid_leaf ← match next_order bids Side.bid with
    | none => Except.error Err.invalidInput
    | some l => Except.ok l
  let ask_leaf ← match next_order asks Side.ask with
    | none => Except.error Err.invalidInput
    | some l => Except.ok l
  let midpoint := (bid_leaf.price + ask_leaf.price) / 2
  return { r with
    dex_market_price := midpoint
    dex_market_price_updated_slot := slot }

/-! ## Governance `process_execute`

The record-layout modules referenced by governance/state/mod.rs
(`proposal_state.rs`, `custom_single_signer_transaction.rs`) and the
helpers in `utils.rs` are not under src; the record fields follow spec
section 3 and the helpers spec section 4.5.2, while the handler logic is
translated from processor/process_execute.rs, which is under src.
Checks that read data outside the model (account initialization, account
equivalence against the proposal record, the extra-accounts loop, the
derived-authority comparison, message decoding and the CPI) are booleans
placed at their source positions. -/

/-- Proposal status (governance state/enums.rs `ProposalStateStatus`). -/
inductive ProposalStateStatus where
  | draft
  | voting
  | executing
  | completed
  | deleted
  | defeated
deriving DecidableEq, Repr

/-- Modelled from the spec: `state/proposal_state.rs` is missing from src;
fields per spec section 3, restricted to those `process_execute` touches. -/
structure ProposalState where
  status : ProposalStateStatus
  voting_ended_at : Nat
  number_of_transactions : Nat
  number_of_executed_transactions : Nat
deriving DecidableEq, Repr

/-- Modelled from the spec: `state/custom_single_signer_transaction.rs` is
missing from src; fields per spec section 3.  The opaque instruction
bytes are not modelled; decoding success is an explicit handler input. -/
structure CustomSingleSignerTransaction where
  delay_slots : Nat
  executed : Nat
deriving DecidableEq, Repr

/-- Outcomes of the unmodelled checks of `process_execute`, in source
order. -/
structure ExecuteChecks where
  inits_ok : Bool
  state_key_ok : Bool
  governance_key_ok : Bool
  extra_accounts_ok : Bool
  account_count_ok : Bool
  authority_ok : Bool
  decode_ok : Bool
  cpi_ok : Bool
deriving DecidableEq, Repr

/-- Records packed back by `process_execute`. -/
structure ExecuteResult where
  transaction : CustomSingleSignerTransaction
  proposal_state : ProposalState
deriving DecidableEq, Repr

/-- Execute handler (governance processor/process_execute.rs).  The
executed-transaction counter's increment uses `checked_add` in the
source; its field width is part of the missing layout module, so the
counter is a plain `Nat` here and the increment cannot overflow. -/
def process_execute (tx : CustomSingleSignerTransaction)
    (ps : ProposalState) (slot : Nat) (c : ExecuteChecks) :
    Except Err ExecuteResult := do
  let _ ← check (c.inits_ok = true) Err.notInited
  let time_elapsed ← checkedSubOr slot ps.voting_ended_at
    Err.numericalOverflow
  let _ ← check (¬ time_elapsed < tx.delay_slots) Err.tooEarlyToExecute
  let _ ← check (c.state_key_ok = true) Err.accountMismatch
  let _ ← check (c.governance_key_ok = true) Err.accountMismatch
  let _ ← check (c.extra_accounts_ok = true) Err.invalidGovernanceKey
  let _ ← check (c.account_count_ok = true) Err.tooManyAccounts
  let _ ← check (c.authority_ok = true) Err.invalidGovernanceKey
  let _ ← check (ps.status = ProposalStateStatus.executing)
    Err.invalidProposalState
  let _ ← check (¬ tx.executed = 1) Err.alreadyExecuted
  let _ ← check (c.decode_ok = true) Err.instructionUnpackError
  let _ ← check (c.cpi_ok = true) Err.executeFailed
  let tx1 := { tx with executed := 1 }
  let n := ps.number_of_executed_transactions + 1
  let ps1 := { ps with
    number_of_executed_transactions := n
    status :=
      if n = ps.number_of_transactions then ProposalStateStatus.completed
      else ps.status }
  return { transaction := tx1, proposal_state := ps1 }

/-! ## Timelock `process_vote`

The handler logic is translated from timelock processor/process_vote.rs,
which is under src.  The record modules it references
(`state/timelock_set.rs`, `state/timelock_config.rs`, `state/enums.rs`)
are not under src (state/mod.rs holds an older, incompatible layout), so
the records follow spec section 3, restricted to the fields the handler
and the claims touch. -/

/-- Timelock proposal status, per spec section 3 (the enums module used
by process_vote.rs is missing from src). -/
inductive TimelockStateStatus where
  | draft
  | voting
  | executing
  | completed
  | defeated
  | deleted
deriving DecidableEq, Repr

/-- Modelled from the spec: the proposal-state record embedded in the
timelock set; spec section 3 gives it a status and `voting_ended_at`. -/
structure TimelockState where
  status : TimelockStateStatus
  voting_ended_at : Nat
deriving DecidableEq, Repr

/-- Modelled from the spec: the timelock set record, holding its embedded
state (the source mutates `timelock_set.state.status`). -/
structure TimelockSet where
  state : TimelockState
deriving DecidableEq, Repr

/-- Timelock proposal kind (spec section 4.5.2). -/
inductive TimelockType where
  | governance
  | committee
deriving DecidableEq, Repr

/-- Consensus rule selector (spec section 4.5.2). -/
inductive ConsensusAlgorithm where
  | majority
  | superMajority
  | fullConsensus
deriving DecidableEq, Repr

/-- Modelled from the spec: the timelock configuration record, restricted
to the fields process_vote reads. -/
structure TimelockConfig where
  timelock_type : TimelockType
  consensus_algorithm : ConsensusAlgorithm
deriving DecidableEq, Repr

/-- Tipping decision of process_vote.rs.  The source divides in binary
floating point and compares against the literals 0.5 and 0.66; this model
uses the exact rational comparisons, which agree except possibly within
one floating-point rounding of the threshold. -/
def vote_tipped (alg : ConsensusAlgorithm)
    (now_remaining_in_no_column total_ever_existed : Nat) : Bool :=
  match alg with
  | ConsensusAlgorithm.majority =>
    2 * now_remaining_in_no_column < total_ever_existed
  | ConsensusAlgorithm.superMajority =>
    100 * now_remaining_in_no_column < 66 * total_ever_existed
  | ConsensusAlgorithm.fullConsensus =>
    now_remaining_in_no_column = 0

/-- Inputs of `process_vote`: the set and config records, the mint
supplies read, the two vote amounts, and the outcomes of the unmodelled
checks in source order.  All token quantities are `u64` (< 2^64). -/
structure VoteCtx where
  timelock_set : TimelockSet
  config : TimelockConfig
  voting_mint_supply : Nat
  yes_voting_mint_supply : Nat
  no_voting_mint_supply : Nat
  governance_mint_supply : Nat
  yes_voting_token_amount : Nat
  no_voting_token_amount : Nat
  inits_ok : Bool
  keys_ok : Bool
  authority_ok : Bool
  burn_ok : Bool
  mint_ok : Bool
deriving DecidableEq, Repr

/-- Total token denominator of the tipping check (process_vote.rs
`total_ever_existed`). -/
def vote_total_ever_existed (c : VoteCtx) : Nat :=
  match c.config.timelock_type with
  | TimelockType.governance => c.governance_mint_supply
  | TimelockType.committee =>
    (c.voting_mint_supply + c.yes_voting_mint_supply +
      c.no_voting_mint_supply) % U64_MOD

/-- Tokens counted as still in the no column (process_vote.rs
`now_remaining_in_no_column`); the governance branch subtracts with
unchecked `u64` arithmetic, wrapping modulo 2^64 in a release build. -/
def vote_now_remaining_in_no_column (c : VoteCtx) : Nat :=
  match c.config.timelock_type with
  | TimelockType.governance =>
    (c.governance_mint_supply + U64_MOD - c.yes_voting_token_amount) % U64_MOD
  | TimelockType.committee =>
    (c.voting_mint_supply + c.no_voting_token_amount) % U64_MOD

/-- Outputs of `process_vote`: the set record as stored afterwards and the
token movements ordered. -/
structure VoteResult where
  timelock_set : TimelockSet
  burn_amount : Nat
  yes_mint_amount : Nat
  no_mint_amount : Nat
deriving DecidableEq, Repr

/-- Vote handler (timelock processor/process_vote.rs).  `assert_voting`
(utils.rs, missing from src) requires status Voting per spec section
4.5.2.  The `u64` sums and the governance-branch subtraction
`governance_mint.supply - yes_voting_token_amount` are unchecked in the
source and wrap modulo 2^64 in a release build, written here with
explicit `% 2^64`.  On tip the handler packs the set with status
Executing; it reads no clock and writes no other state field. -/
def process_vote (c : VoteCtx) : Except Err VoteResult := do
  let _ ← check (c.inits_ok = true) Err.notInited
  let _ ← check (c.keys_ok = true) Err.accountMismatch
  let _ ← check (c.timelock_set.state.status = TimelockStateStatus.voting)
    Err.notVoting
  let _ ← check (c.authority_ok = true) Err.invalidTimelockAuthority
  let total_ever_existed := vote_total_ever_existed c
  let now_remaining_in_no_column := vote_now_remaining_in_no_column c
  let _ ← check (c.burn_ok = true) Err.tokenOpFailed
  let _ ← check (c.mint_ok = true) Err.tokenOpFailed
  let tipped := vote_tipped c.config.consensus_algorithm
    now_remaining_in_no_column total_ever_existed
  let set1 :=
    if tipped then
      { c.timelock_set with state :=
        { c.timelock_set.state with status := TimelockStateStatus.executing } }
    else
      c.timelock_set
  return { timelock_set := set1
           burn_amount :=
             (c.yes_voting_token_amount + c.no_voting_token_amount) % U64_MOD
           yes_mint_amount := c.yes_voting_token_amount
           no_mint_amount := c.no_voting_token_amount }

/-! ## Sample records shared by concrete witnesses -/

/-- Decidable equality of handler outcomes, so concrete runs can be
settled by `decide`. -/
instance {ε α : Type} [DecidableEq ε] [DecidableEq α] :
    DecidableEq (Except ε α) := fun
  | .error e, .error f =>
    if h : e = f then .isTrue (congrArg Except.error h)
    else .isFalse (fun hc => h (Except.error.inj hc))
  | .error _, .ok _ => .isFalse (fun hc => Except.noConfusion hc)
  | .ok _, .error _ => .isFalse (fun hc => Except.noConfusion hc)
  | .ok a, .ok b =>
    if h : a = b then .isTrue (congrArg Except.ok h)
    else .isFalse (fun hc => h (Except.ok.inj hc))

/-- A reserve record used as the base of concrete witnesses. -/
def baseReserve : Reserve :=
  { lending_market := 1
    liquidity_supply := 2
    liquidity_mint := 3
    collateral_supply := 4
    collateral_mint := 5
    dex_market := some 6
    dex_market_price := 0
    dex_market_price_updated_slot := 0
    cumulative_borrow_rate := Decimal.fromNat 1
    total_borrows := ⟨0⟩
    borrow_state_update_slot := 0 }

/-- Reserve state left by one cumulative-rate update. -/
def updateOnceState (r : Reserve) (slot liq : Nat) : Except Err Reserve :=
  (r.update_cumulative_rate slot liq).map Prod.fst

/-- Reserve state left by two cumulative-rate updates at the same slot
against the same liquidity-supply snapshot. -/
def updateTwiceState (r : Reserve) (slot liq : Nat) : Except Err Reserve :=
  ((r.update_cumulative_rate slot liq).bind
    (fun p => p.1.update_cumulative_rate slot liq)).map Prod.fst

/-! ## Concrete sample inputs used by witnesses and counterexamples -/

/-- Deposit context of the C3 witness: a reserve already updated at slot
5 receives 10 liquidity tokens against an empty collateral mint. -/
def depositCtxW : DepositCtx :=
  { liquidity_amount := 10
    reserve := { baseReserve with borrow_state_update_slot := 5 }
    liquidity_input_key := 9
    liquidity_supply_key := 2
    collateral_output_key := 8
    collateral_mint_key := 5
    liquidity_supply_amount := 100
    collateral_mint_supply := 0
    slot := 5 }

/-- Deposit outcome of the C3 witness. -/
def depositResW : DepositResult :=
  { packed_reserve := { baseReserve with borrow_state_update_slot := 5 }
    liquidity_transfer_amount := 10
    collateral_mint_amount := 50 }

/-- Withdraw context of the C3 witness. -/
def withdrawCtxW : WithdrawCtx :=
  { collateral_amount := 50
    reserve := { baseReserve with borrow_state_update_slot := 5 }
    liquidity_output_key := 9
    liquidity_supply_key := 2
    collateral_input_key := 8
    collateral_mint_key := 5
    liquidity_supply_amount := 100
    collateral_mint_supply := 0
    slot := 5 }

/-- Withdraw outcome of the C3 witness. -/
def withdrawResW : WithdrawResult :=
  { packed_reserve := { baseReserve with borrow_state_update_slot := 5 }
    liquidity_transfer_amount := 10
    collateral_burn_amount := 50 }

/-- Repay reserve of the C4 witness: 100 borrowed against 900 idle,
last updated at slot 7. -/
def repayReserveW : Reserve :=
  { baseReserve with
    borrow_state_update_slot := 7
    total_borrows := Decimal.fromNat 100 }

/-- Withdraw reserve of the C4 witness. -/
def withdrawReserveW : Reserve :=
  { baseReserve with collateral_supply := 14 }

/-- Obligation of the C4 witness: 50 borrowed against 40 collateral at
the same cumulative rate as the reserve. -/
def obligationW : Obligation :=
  { last_update_slot := 2
    collateral_amount := 40
    collateral_supply := 21
    cumulative_borrow_rate := Decimal.fromNat 1
    borrow_amount := Decimal.fromNat 50
    borrow_reserve := 20
    token_mint := 22 }

/-- Repay context of the C4 witness: repay 20 of the 50 owed. -/
def repayCtxW : RepayCtx :=
  { liquidity_amount := 20
    obligation := obligationW
    repay_reserve := repayReserveW
    withdraw_reserve := withdrawReserveW
    repay_reserve_key := 20
    withdraw_reserve_key := 21
    obligation_mint_key := 22
    liquidity_supply_key := 2
    collateral_supply_key := 14
    liquidity_supply_amount := 900
    obligation_mint_supply := 50
    slot := 7 }

/-- The C4 witness obligation after accrual (zero interest accrues:
the rate snapshot already matches). -/
def obligation1W : Obligation :=
  { obligationW with last_update_slot := 7 }

/-- Repay outcome of the C4 witness: 20 repaid, 16 of 40 collateral
released, 20 of 50 obligation tokens burned. -/
def repayResW : RepayResult :=
  { obligation := { obligation1W with
      collateral_amount := 24
      borrow_amount := Decimal.fromNat 30 }
    repay_reserve := { repayReserveW with total_borrows := Decimal.fromNat 80 }
    repay_amount := 20
    collateral_withdraw_amount := 16
    obligation_token_amount := 20 }

/-- An all-zero obligation account (uninitialized content). -/
def zeroObligation : Obligation :=
  { last_update_slot := 0
    collateral_amount := 0
    collateral_supply := 0
    cumulative_borrow_rate := ⟨0⟩
    borrow_amount := ⟨0⟩
    borrow_reserve := 0
    token_mint := 0 }

/-- Borrow reserve shared by the C2 runs: quote-currency reserve at slot
5 with 200 idle liquidity. -/
def borrowReserveC2 : Reserve :=
  { lending_market := 1
    liquidity_supply := 12
    liquidity_mint := 7
    collateral_supply := 13
    collateral_mint := 15
    dex_market := none
    dex_market_price := 0
    dex_market_price_updated_slot := 0
    cumulative_borrow_rate := Decimal.fromNat 1
    total_borrows := ⟨0⟩
    borrow_state_update_slot := 5 }

/-- Borrow context of the C2 counterexample: the deposit reserve's borrow
state sits at slot 3 while the clock is at slot 5, every other input
valid. -/
def borrowCtxCE : BorrowCtx :=
  { collateral_amount := 50
    deposit_reserve := { baseReserve with borrow_state_update_slot := 3 }
    borrow_reserve := borrowReserveC2
    deposit_reserve_key := 30
    borrow_reserve_key := 31
    borrow_reserve_liquidity_supply_key := 12
    obligation_token_mint_key := 32
    deposit_reserve_collateral_supply_mint := 5
    deposit_reserve_liquidity_supply_amount := 100
    deposit_reserve_collateral_mint_supply := 0
    borrow_reserve_liquidity_supply_amount := 200
    dex_orders := [⟨1, 2, 3⟩]
    dex_market_quote_mint := 7
    old_obligation := zeroObligation
    slot := 5 }

/-- Outcome the claim's rendition of the borrow handler produces on the
C2 counterexample context. -/
def borrowResClaim : BorrowResult :=
  { borrow_reserve := { borrowReserveC2 with total_borrows := Decimal.fromNat 20 }
    obligation :=
      { last_update_slot := 5
        collateral_amount := 50
        collateral_supply := 30
        cumulative_borrow_rate := Decimal.fromNat 1
        borrow_amount := Decimal.fromNat 20
        borrow_reserve := 31
        token_mint := 32 }
    deposit_amount := 10
    borrow_amount := 20 }

/-- Borrow context of the C2 witness: as the counterexample but with the
deposit reserve already updated at the clock slot. -/
def borrowCtxOK : BorrowCtx :=
  { borrowCtxCE with
    deposit_reserve := { baseReserve with borrow_state_update_slot := 5 } }

/-- Order book of the C1 counterexample: two leaves, the bid extremum at
key 10 (price 5, quantity 4) and the ask extremum at key 1 (price 2,
quantity 3). -/
def ordersC1 : List OrderLeaf :=
  [⟨1, 2, 3⟩, ⟨10, 5, 4⟩]

/-- Deposit reserve of the C1 counterexample, whose liquidity mint equals
the market's quote mint 7. -/
def reserveQuoteC1 : Reserve :=
  { baseReserve with liquidity_mint := 7 }

/-- Transaction of the C7 witness: delay of 10 slots, not yet executed. -/
def txC7 : CustomSingleSignerTransaction :=
  { delay_slots := 10, executed := 0 }

/-- Proposal state of the C7 witness: executing, voting ended at slot
100, one transaction pending. -/
def psC7 : ProposalState :=
  { status := ProposalStateStatus.executing
    voting_ended_at := 100
    number_of_transactions := 1
    number_of_executed_transactions := 0 }

/-- All unmodelled checks of `process_execute` passing. -/
def allExecChecks : ExecuteChecks :=
  { inits_ok := true
    state_key_ok := true
    governance_key_ok := true
    extra_accounts_ok := true
    account_count_ok := true
    authority_ok := true
    decode_ok := true
    cpi_ok := true }

/-- Outcome of the C7 witness execution at slot 110: the transaction is
marked executed and the proposal completes. -/
def execResC7 : ExecuteResult :=
  { transaction := { delay_slots := 10, executed := 1 }
    proposal_state :=
      { status := ProposalStateStatus.completed
        voting_ended_at := 100
        number_of_transactions := 1
        number_of_executed_transactions := 1 } }

/-- Vote context of the C8 runs: a governance-type majority vote of 60
yes out of a supply of 100, tipping the proposal, cast while the clock
(which the handler never reads) stands at slot 42. -/
def voteCtxC8 : VoteCtx :=
  { timelock_set :=
      { state := { status := TimelockStateStatus.voting, voting_ended_at := 0 } }
    config :=
      { timelock_type := TimelockType.governance
        consensus_algorithm := ConsensusAlgorithm.majority }
    voting_mint_supply := 0
    yes_voting_mint_supply := 0
    no_voting_mint_supply := 0
    governance_mint_supply := 100
    yes_voting_token_amount := 60
    no_voting_token_amount := 0
    inits_ok := true
    keys_ok := true
    authority_ok := true
    burn_ok := true
    mint_ok := true }

/-- Outcome of the C8 vote: status flips to Executing, `voting_ended_at`
still holds its prior value 0. -/
def voteResC8 : VoteResult :=
  { timelock_set :=
      { state :=
        { status := TimelockStateStatus.executing, voting_ended_at := 0 } }
    burn_amount := 60
    yes_mint_amount := 60
    no_mint_amount := 0 }

/-! ## Claim C6 -/

/-- C6: the collateral exchange rate fails with InvalidInput whenever the
reserve's borrow state was not updated this slot; otherwise it equals the
constant INITIAL_COLLATERAL_RATE = 5 when the collateral mint supply is
zero, and collateral_supply / (total_borrows + liquidity) otherwise;
liquidity_to_collateral multiplies the amount by this rate and
collateral_to_liquidity divides the amount by it. -/
theorem C6_collateral_exchange_rate (r : Reserve)
    (slot liq csup amount : Nat) :
    (r.borrow_state_update_slot ≠ slot →
      r.collateral_exchange_rate slot liq csup = .error Err.invalidInput) ∧
    (r.borrow_state_update_slot = slot → csup = 0 →
      r.collateral_exchange_rate slot liq csup =
        .ok (Decimal.fromNat INITIAL_COLLATERAL_RATE) ∧
      INITIAL_COLLATERAL_RATE = 5) ∧
    (r.borrow_state_update_slot = slot → csup ≠ 0 →
      r.collateral_exchange_rate slot liq csup =
        (Decimal.fromNat csup).div
          (r.total_borrows.add (Decimal.fromNat liq))) ∧
    (r.liquidity_to_collateral slot liq csup amount =
      (r.collateral_exchange_rate slot liq csup).map
        (fun rate => (Decimal.fromNat amount).mul rate)) ∧
    (r.collateral_to_liquidity slot liq csup amount =
      (r.collateral_exchange_rate slot liq csup).bind
        (fun rate => (Decimal.fromNat amount).div rate)) := by
  refine ⟨fun h => ?_, fun h h0 => ⟨?_, rfl⟩, fun h h0 => ?_, ?_, ?_⟩
  · simp [Reserve.collateral_exchange_rate, h]
  · simp [Reserve.collateral_exchange_rate, h, h0]
  · simp [Reserve.collateral_exchange_rate, h, h0]
  · unfold Reserve.liquidity_to_collateral
    cases hx : r.collateral_exchange_rate slot liq csup <;>
      simp [hx, Except.map, Bind.bind, Except.bind, pure, Except.pure]
  · unfold Reserve.collateral_to_liquidity
    cases hx : r.collateral_exchange_rate slot liq csup <;>
      simp [hx, Bind.bind, Except.bind]

/-- Witness for C6 at concrete inputs: a stale reserve fails with
InvalidInput, and a fresh one with zero collateral supply yields the 5:1
initial rate. -/
theorem C6_witness :
    ({ baseReserve with borrow_state_update_slot := 3 } :
        Reserve).collateral_exchange_rate 5 10 0 = .error Err.invalidInput ∧
    ({ baseReserve with borrow_state_update_slot := 5 } :
        Reserve).collateral_exchange_rate 5 10 0 =
      .ok (Decimal.fromNat INITIAL_COLLATERAL_RATE) :=
  ⟨(C6_collateral_exchange_rate _ 5 10 0 0).1 (by decide),
   ((C6_collateral_exchange_rate _ 5 10 0 0).2.1 (by decide) rfl).1⟩

/-! ## Claim C10 -/

/-- C10: for every reserve with zero total borrows whose liquidity token
account holds zero tokens, the borrow-rate curve evaluates the
utilization as an unguarded 0/0 and aborts (the zero-total-supply guard
is commented out in the source), and consequently every non-first
cumulative-rate update on such a reserve aborts as well. -/
theorem C10_zero_utilization_aborts (r : Reserve)
    (hb : r.total_borrows.raw = 0) :
    r.current_borrow_rate 0 = .error Err.divByZero ∧
    (r.borrow_state_update_slot ≠ 0 → ∀ s,
      r.update_cumulative_rate s 0 = .error Err.divByZero) := by
  have hz : (r.total_borrows.add (Decimal.fromNat 0)).raw = 0 := by
    simp [Decimal.add, Decimal.fromNat, hb]
  have hrate : r.current_borrow_rate 0 = .error Err.divByZero := by
    unfold Reserve.current_borrow_rate
    simp [Decimal.div, hz, Bind.bind, Except.bind]
  refine ⟨hrate, fun h0 s => ?_⟩
  unfold Reserve.update_cumulative_rate
  simp [h0, hrate, Bind.bind, Except.bind]

/-- Witness for C10 at a concrete reserve: an empty reserve whose borrow
state was last advanced at slot 3 aborts on its next update. -/
theorem C10_witness :
    ({ baseReserve with borrow_state_update_slot := 3 } :
        Reserve).current_borrow_rate 0 = .error Err.divByZero ∧
    ({ baseReserve with borrow_state_update_slot := 3 } :
        Reserve).update_cumulative_rate 5 0 = .error Err.divByZero :=
  ⟨(C10_zero_utilization_aborts _ rfl).1,
   (C10_zero_utilization_aborts _ rfl).2 (by decide) 5⟩

/-! ## Claim C9 -/

/-- C9: a byte buffer whose first byte is tag 6 decodes to SetPrice, and
the SetPrice handler (modelled from the spec, the handler being absent
from the processor under src) writes the truncated order-book midpoint
into `dex_market_price` and the clock slot into
`dex_market_price_updated_slot`. -/
theorem C9_set_price_decode (rest : List Nat) :
    LendingInstruction.unpack (6 :: rest) = .ok LendingInstruction.setPrice ∧
    (∀ (r : Reserve) (bids asks : List OrderLeaf) (slot : Nat)
        (res : Reserve), process_set_price r bids asks slot = .ok res →
      ∃ bid_leaf ask_leaf,
        next_order bids Side.bid = some bid_leaf ∧
        next_order asks Side.ask = some ask_leaf ∧
        res = { r with
          dex_market_price := (bid_leaf.price + ask_leaf.price) / 2
          dex_market_price_updated_slot := slot }) := by
  refine ⟨rfl, fun r bids asks slot res h => ?_⟩
  unfold process_set_price at h
  cases hb : next_order bids Side.bid <;> rw [hb] at h
  · simp [Bind.bind, Except.bind] at h
  · cases ha : next_order asks Side.ask <;> rw [ha] at h
    · simp [Bind.bind, Except.bind] at h
    · simp [Bind.bind, Except.bind, pure, Except.pure] at h
      exact ⟨_, _, rfl, rfl, h.symm⟩

/-- Witness for C9 at concrete inputs: tag 6 decodes to SetPrice and a
one-leaf book on each side produces the midpoint price at slot 9. -/
theorem C9_witness :
    LendingInstruction.unpack [6] = .ok LendingInstruction.setPrice ∧
    process_set_price baseReserve [⟨1, 10, 3⟩] [⟨2, 16, 4⟩] 9 =
      .ok { baseReserve with
        dex_market_price := 13
        dex_market_price_updated_slot := 9 } :=
  ⟨(C9_set_price_decode []).1, by decide⟩

/-! ## Claim C5

Helper facts about `Decimal` arithmetic and the update integrator. -/

/-- Adding a zero-raw decimal is the identity. -/
theorem Decimal.add_zero_raw (a : Decimal) : a.add ⟨0⟩ = a := by
  cases a
  simp [Decimal.add]

/-- Multiplying by a zero-raw decimal gives zero. -/
theorem Decimal.mul_zero_raw (a : Decimal) : a.mul ⟨0⟩ = ⟨0⟩ := by
  simp [Decimal.mul]

/-- Multiplying a zero-raw decimal gives zero. -/
theorem Decimal.zero_raw_mul (a : Decimal) : (⟨0⟩ : Decimal).mul a = ⟨0⟩ := by
  simp [Decimal.mul]

/-- Multiplying by the raw scaling factor (the decimal value one) is the
identity. -/
theorem Decimal.mul_scaler_raw (a : Decimal) : a.mul ⟨scaler⟩ = a := by
  cases a
  simp [Decimal.mul, Nat.mul_div_cancel, Nat.pos_pow_of_pos, scaler]

/-- The borrow-rate curve succeeds whenever the total supply is nonzero. -/
theorem Reserve.current_borrow_rate_ok (r : Reserve) (liq : Nat)
    (hsup : ¬ (r.total_borrows.add (Decimal.fromNat liq)).raw = 0) :
    ∃ d, r.current_borrow_rate liq = .ok d := by
  have h80 : ¬ (Decimal.new 80 2).raw = 0 := by decide
  have h42 : ¬ (Decimal.new 4 2).raw < (Decimal.new 0 2).raw := by decide
  have h1x : ¬ (Decimal.fromNat 1).raw < (Decimal.new 80 2).raw := by decide
  have h3042 : ¬ (Decimal.new 30 2).raw < (Decimal.new 4 2).raw := by decide
  have hroom :
      ¬ (⟨(Decimal.fromNat 1).raw - (Decimal.new 80 2).raw⟩ : Decimal).raw = 0 := by
    decide
  unfold Reserve.current_borrow_rate
  simp only [Decimal.div, Decimal.sub, hsup, if_false, ite_false, Bind.bind,
    Except.bind, if_neg hsup]
  split
  · simp only [if_neg h80, if_neg h42, pure, Except.pure]
    exact ⟨_, rfl⟩
  · rename_i hcmp
    simp only [if_neg hcmp, if_neg h1x, if_neg hroom, if_neg h3042, pure,
      Except.pure]
    exact ⟨_, rfl⟩

/-- An update at the reserve's own (nonzero) update slot is a no-op:
zero slots have elapsed, so no interest accrues and the state and the
returned rate are unchanged. -/
theorem Reserve.update_same_slot (r : Reserve) (liq : Nat)
    (h0 : ¬ r.borrow_state_update_slot = 0)
    (hsup : ¬ (r.total_borrows.add (Decimal.fromNat liq)).raw = 0) :
    r.update_cumulative_rate r.borrow_state_update_slot liq =
      .ok (r, r.cumulative_borrow_rate) := by
  obtain ⟨d, hd⟩ := r.current_borrow_rate_ok liq hsup
  have hY : ¬ (Decimal.fromNat SLOTS_PER_YEAR).raw = 0 := by decide
  have hzero : Decimal.fromNat 0 = ⟨0⟩ := by decide
  have hone : (Decimal.fromNat 1).add ⟨0⟩ = ⟨scaler⟩ := by decide
  unfold Reserve.update_cumulative_rate
  rw [if_neg h0]
  simp only [hd, Bind.bind, Except.bind, checkedSub, Nat.lt_irrefl, if_false,
    ite_false, Nat.sub_self, hzero, Decimal.zero_raw_mul, Decimal.div, hY,
    Decimal.mul_zero_raw, Decimal.add_zero_raw, hone, Decimal.mul_scaler_raw]
  have : (⟨scaler * (0 : Nat) / (Decimal.fromNat SLOTS_PER_YEAR).raw⟩ :
      Decimal) = ⟨0⟩ := by
    simp
  rw [this]
  simp only [Decimal.mul_zero_raw, Decimal.add_zero_raw, hone,
    Decimal.mul_scaler_raw]

/-- A non-first update at a slot not before the stored one succeeds when
the total supply is nonzero, lands on the requested slot, and can only
grow the total borrows. -/
theorem Reserve.update_ok (r : Reserve) (s liq : Nat)
    (h0 : ¬ r.borrow_state_update_slot = 0)
    (h1 : r.borrow_state_update_slot ≤ s)
    (hsup : ¬ (r.total_borrows.add (Decimal.fromNat liq)).raw = 0) :
    ∃ p : Reserve × Decimal, r.update_cumulative_rate s liq = .ok p ∧
      p.1.borrow_state_update_slot = s ∧
      r.total_borrows.raw ≤ p.1.total_borrows.raw := by
  obtain ⟨d, hd⟩ := r.current_borrow_rate_ok liq hsup
  have hY : ¬ (Decimal.fromNat SLOTS_PER_YEAR).raw = 0 := by decide
  unfold Reserve.update_cumulative_rate
  rw [if_neg h0]
  simp only [hd, Bind.bind, Except.bind, checkedSub]
  rw [if_neg (Nat.not_lt.mpr h1)]
  simp only [Bind.bind, Except.bind, Decimal.div]
  rw [if_neg hY]
  simp only [Bind.bind, Except.bind]
  refine ⟨_, rfl, rfl, ?_⟩
  simp [Decimal.add]

/-- C5 (amended): for every stored reserve and every slot `s` not earlier
than its `borrow_state_update_slot`, running `update_cumulative_rate`
twice at `s` against the same liquidity-supply snapshot yields the same
reserve state (also as a pair of failures) as running it once — except in
the one corner the counterexample exhibits: a first-ever update
(`borrow_state_update_slot = 0`) at a slot `s > 0` on a reserve with zero
total borrows and zero liquidity, where the second run aborts on the
unguarded 0/0 utilization while the single run succeeds.  The bounds
record that the claim ranges over packable on-chain state. -/
theorem C5_update_idempotent_amended (r : Reserve) (s liq : Nat)
    (h1 : r.borrow_state_update_slot ≤ s)
    (h2 : ¬ (r.borrow_state_update_slot = 0 ∧ 0 < s ∧
      r.total_borrows.raw = 0 ∧ liq = 0))
    (_hcb : r.cumulative_borrow_rate.raw < 2 ^ 128)
    (_htb : r.total_borrows.raw < 2 ^ 128)
    (_hlq : liq < 2 ^ 64) (_hsl : s < 2 ^ 64) :
    updateTwiceState r s liq = updateOnceState r s liq := by
  have hscaler : ¬ scaler = 0 := by decide
  by_cases hz : r.borrow_state_update_slot = 0
  · by_cases hs0 : s = 0
    · subst hs0
      unfold updateTwiceState updateOnceState
      simp [Reserve.update_cumulative_rate, hz, Bind.bind, Except.bind,
        Except.map]
    · have hsup : ¬ (({ r with
          borrow_state_update_slot := s
          cumulative_borrow_rate := Decimal.fromNat 1 } :
            Reserve).total_borrows.add (Decimal.fromNat liq)).raw = 0 := by
        simp only [Decimal.add, Decimal.fromNat]
        intro hsum
        have hb0 : r.total_borrows.raw = 0 := by omega
        have hl0 : liq = 0 := by
          rcases Nat.mul_eq_zero.mp (by omega : scaler * liq = 0) with h | h
          · exact absurd h hscaler
          · exact h
        exact h2 ⟨hz, Nat.pos_of_ne_zero hs0, hb0, hl0⟩
      have h0r1 : ¬ ({ r with
          borrow_state_update_slot := s
          cumulative_borrow_rate := Decimal.fromNat 1 } :
            Reserve).borrow_state_update_slot = 0 := hs0
      have h2nd := Reserve.update_same_slot
        ({ r with
          borrow_state_update_slot := s
          cumulative_borrow_rate := Decimal.fromNat 1 } : Reserve) liq h0r1 hsup
      have hslot1 : ({ r with
          borrow_state_update_slot := s
          cumulative_borrow_rate := Decimal.fromNat 1 } :
            Reserve).borrow_state_update_slot = s := rfl
      rw [hslot1] at h2nd
      have honce : r.update_cumulative_rate s liq =
          .ok ({ r with
            borrow_state_update_slot := s
            cumulative_borrow_rate := Decimal.fromNat 1 },
            Decimal.fromNat 1) := by
        unfold Reserve.update_cumulative_rate
        rw [if_pos hz]
      unfold updateTwiceState updateOnceState
      rw [honce]
      simp only [Bind.bind, Except.bind]
      rw [h2nd]
  · by_cases hsup : (r.total_borrows.add (Decimal.fromNat liq)).raw = 0
    · have hrate : r.current_borrow_rate liq = .error Err.divByZero := by
        unfold Reserve.current_borrow_rate
        simp [Decimal.div, hsup, Bind.bind, Except.bind]
      have honce : r.update_cumulative_rate s liq = .error Err.divByZero := by
        unfold Reserve.update_cumulative_rate
        rw [if_neg hz]
        simp [hrate, Bind.bind, Except.bind]
      unfold updateTwiceState updateOnceState
      rw [honce]
      rfl
    · obtain ⟨p, hp, hslot, hle⟩ := r.update_ok s liq hz h1 hsup
      have hs0 : ¬ s = 0 := fun hc => hz (by omega)
      have hsup2 : ¬ (p.1.total_borrows.add (Decimal.fromNat liq)).raw = 0 := by
        simp only [Decimal.add, Decimal.fromNat] at hsup ⊢
        omega
      have h0p : ¬ p.1.borrow_state_update_slot = 0 := by
        rw [hslot]; exact hs0
      have h2nd := Reserve.update_same_slot p.1 liq h0p hsup2
      rw [hslot] at h2nd
      unfold updateTwiceState updateOnceState
      rw [hp]
      simp only [Bind.bind, Except.bind]
      rw [h2nd]
      rfl

/-- Counterexample to C5 as stated: on a reserve awaiting its first
update with zero borrows and an empty liquidity account, a single update
at slot 5 succeeds, but running the update twice at slot 5 aborts with a
division by zero, so the two runs do not yield the same reserve state. -/
theorem C5_counterexample :
    updateOnceState baseReserve 5 0 =
      .ok { baseReserve with
        borrow_state_update_slot := 5
        cumulative_borrow_rate := Decimal.fromNat 1 } ∧
    updateTwiceState baseReserve 5 0 = .error Err.divByZero := by
  constructor
  · rfl
  · rfl

/-- Witness for the amended C5 at concrete inputs: a reserve last updated
at slot 3, updated twice at slot 5 against a 7-token supply, matches a
single update. -/
theorem C5_witness :
    updateTwiceState { baseReserve with borrow_state_update_slot := 3 } 5 7 =
      updateOnceState { baseReserve with borrow_state_update_slot := 3 } 5 7 :=
  C5_update_idempotent_amended _ 5 7 (by decide) (by decide) (by decide)
    (by decide) (by decide) (by decide)

/-! ## Claim C3

Success-extraction helpers for the handler do-chains. -/

/-- A successful guarded continuation means the guard held and the
continuation succeeded. -/
theorem checkBind_ok {α : Type} {c : Prop} [Decidable c] {e : Err}
    {f : Unit → Except Err α} {res : α}
    (h : check c e >>= f = .ok res) : c ∧ f () = .ok res := by
  by_cases hc : c
  · unfold check at h
    rw [if_pos hc] at h
    exact ⟨hc, h⟩
  · unfold check at h
    rw [if_neg hc] at h
    simp [Bind.bind, Except.bind] at h

/-- A successful bind means the first step succeeded and the continuation
succeeded on its value. -/
theorem exceptBind_ok {ε α β : Type} {m : Except ε α} {f : α → Except ε β}
    {res : β} (h : m >>= f = .ok res) :
    ∃ a, m = .ok a ∧ f a = .ok res := by
  cases m with
  | error e => simp [Bind.bind, Except.bind] at h
  | ok a => exact ⟨a, rfl, h⟩

/-- A successful cumulative-rate update always lands the reserve on the
requested slot (both branches of the source write it). -/
theorem Reserve.update_slot_eq (r : Reserve) (slot liq : Nat)
    (p : Reserve × Decimal)
    (h : r.update_cumulative_rate slot liq = .ok p) :
    p.1.borrow_state_update_slot = slot := by
  unfold Reserve.update_cumulative_rate at h
  split at h
  · cases Except.ok.inj h
    rfl
  · obtain ⟨d, hd, h⟩ := exceptBind_ok h
    obtain ⟨el, he, h⟩ := exceptBind_ok h
    obtain ⟨i, hi, h⟩ := exceptBind_ok h
    cases Except.ok.inj h
    rfl

/-- C3: a successful Deposit leaves the stored reserve record exactly as
it was — process_deposit updates only an in-memory copy and never packs
the reserve, so cumulative_borrow_rate, total_borrows and
borrow_state_update_slot keep their prior stored values — whereas a
successful Withdraw packs the updated record, which sits at the current
slot. -/
theorem C3_deposit_reserve_frame :
    (∀ (c : DepositCtx) (res : DepositResult),
      process_deposit c = .ok res → res.packed_reserve = c.reserve) ∧
    (∀ (w : WithdrawCtx) (wres : WithdrawResult),
      process_withdraw w = .ok wres →
      ∃ rate, w.reserve.update_cumulative_rate w.slot
          w.liquidity_supply_amount = .ok (wres.packed_reserve, rate) ∧
        wres.packed_reserve.borrow_state_update_slot = w.slot) := by
  constructor
  · intro c res h
    unfold process_deposit at h
    obtain ⟨h1, h⟩ := checkBind_ok h
    obtain ⟨h2, h⟩ := checkBind_ok h
    obtain ⟨h3, h⟩ := checkBind_ok h
    obtain ⟨p, hu, h⟩ := exceptBind_ok h
    obtain ⟨r1, rate⟩ := p
    obtain ⟨d, hd, h⟩ := exceptBind_ok h
    cases Except.ok.inj h
    rfl
  · intro w wres h
    unfold process_withdraw at h
    obtain ⟨h1, h⟩ := checkBind_ok h
    obtain ⟨h2, h⟩ := checkBind_ok h
    obtain ⟨h3, h⟩ := checkBind_ok h
    obtain ⟨p, hu, h⟩ := exceptBind_ok h
    obtain ⟨r1, rate⟩ := p
    obtain ⟨d, hd, h⟩ := exceptBind_ok h
    cases Except.ok.inj h
    exact ⟨rate, hu, Reserve.update_slot_eq _ _ _ _ hu⟩

/-- Witness for C3 at concrete inputs: a successful deposit of 10 tokens
leaves the stored reserve untouched, while the matching withdraw packs
the reserve at the current slot. -/
theorem C3_witness :
    depositResW.packed_reserve = depositCtxW.reserve ∧
    process_deposit depositCtxW = .ok depositResW ∧
    withdrawResW.packed_reserve.borrow_state_update_slot = withdrawCtxW.slot ∧
    process_withdraw withdrawCtxW = .ok withdrawResW := by
  refine ⟨C3_deposit_reserve_frame.1 depositCtxW depositResW (by decide),
    by decide, ?_, by decide⟩
  obtain ⟨rate, hu, hs⟩ :=
    C3_deposit_reserve_frame.2 withdrawCtxW withdrawResW (by decide)
  exact hs

/-! ## Claim C4 -/

/-- A successful `Decimal` subtraction expresses an exact decrease. -/
theorem Decimal.sub_ok_eq {a b d : Decimal} (h : a.sub b = .ok d) :
    d.raw + b.raw = a.raw := by
  unfold Decimal.sub at h
  split at h
  · exact absurd h (by simp)
  · rename_i hle
    cases Except.ok.inj h
    dsimp only
    omega

/-- A successful checked `u64` subtraction expresses an exact decrease. -/
theorem checkedSub_ok_eq {a b n : Nat} (h : checkedSub a b = .ok n) :
    n + b = a := by
  unfold checkedSub at h
  split at h
  · exact absurd h (by simp)
  · rename_i hle
    cases Except.ok.inj h
    omega

/-- A successful `subtract_repay` decreases `total_borrows` exactly. -/
theorem Reserve.subtract_repay_ok_eq {r r2 : Reserve} {d : Decimal}
    (h : r.subtract_repay d = .ok r2) :
    r2.total_borrows.raw + d.raw = r.total_borrows.raw := by
  unfold Reserve.subtract_repay at h
  obtain ⟨t, ht, h⟩ := exceptBind_ok h
  cases Except.ok.inj h
  exact Decimal.sub_ok_eq ht

/-- C4: on a successful repay whose cumulative-rate update produced `rr`
and whose obligation accrual produced `ob1`, the repaid amount is
`min(liquidity_amount, round_u64(ob1.borrow_amount))`; the collateral
withdrawn is `round_u64((repay / ob1.borrow_amount) * collateral)`; and
the packed obligation's borrow amount, its collateral amount and the
repay reserve's total borrows have each decreased by exactly the repaid
or withdrawn quantity (`scaler * repay` is the raw value of the repaid
amount as a Decimal). -/
theorem C4_repay_amounts (c : RepayCtx) (res : RepayResult)
    (rr : Reserve) (rate : Decimal) (ob1 : Obligation)
    (hup : c.repay_reserve.update_cumulative_rate c.slot
      c.liquidity_supply_amount = .ok (rr, rate))
    (hac : c.obligation.accrue_interest c.slot rr = .ok ob1)
    (hrun : process_repay c = .ok res) :
    res.repay_amount = min c.liquidity_amount ob1.borrow_amount.round_u64 ∧
    (∃ pct, (Decimal.fromNat res.repay_amount).div ob1.borrow_amount =
        .ok pct ∧
      res.collateral_withdraw_amount =
        (pct.mul (Decimal.fromNat ob1.collateral_amount)).round_u64 ∧
      res.obligation_token_amount =
        (pct.mul (Decimal.fromNat c.obligation_mint_supply)).round_u64) ∧
    res.obligation.borrow_amount.raw + scaler * res.repay_amount =
      ob1.borrow_amount.raw ∧
    res.obligation.collateral_amount + res.collateral_withdraw_amount =
      ob1.collateral_amount ∧
    res.repay_reserve.total_borrows.raw + scaler * res.repay_amount =
      rr.total_borrows.raw := by
  unfold process_repay at hrun
  obtain ⟨g1, hrun⟩ := checkBind_ok hrun
  obtain ⟨g2, hrun⟩ := checkBind_ok hrun
  obtain ⟨g3, hrun⟩ := checkBind_ok hrun
  obtain ⟨g4, hrun⟩ := checkBind_ok hrun
  obtain ⟨g5, hrun⟩ := checkBind_ok hrun
  obtain ⟨g6, hrun⟩ := checkBind_ok hrun
  obtain ⟨p, hp, hrun⟩ := exceptBind_ok hrun
  rw [hup] at hp
  cases Except.ok.inj hp
  obtain ⟨o1, ho1, hrun⟩ := exceptBind_ok hrun
  rw [hac] at ho1
  cases Except.ok.inj ho1
  obtain ⟨pct, hpct, hrun⟩ := exceptBind_ok hrun
  obtain ⟨nb, hnb, hrun⟩ := exceptBind_ok hrun
  obtain ⟨nc, hnc, hrun⟩ := exceptBind_ok hrun
  obtain ⟨rr2, hrr2, hrun⟩ := exceptBind_ok hrun
  cases Except.ok.inj hrun
  refine ⟨rfl, ⟨pct, hpct, rfl, rfl⟩, ?_, ?_, ?_⟩
  · exact Decimal.sub_ok_eq hnb
  · exact checkedSub_ok_eq hnc
  · exact Reserve.subtract_repay_ok_eq hrr2

/-- Witness for C4 at concrete inputs: repaying 20 of a 50-token debt
releases 16 of 40 collateral and shrinks obligation and reserve exactly. -/
theorem C4_witness :
    process_repay repayCtxW = .ok repayResW ∧
    repayResW.repay_amount =
      min repayCtxW.liquidity_amount obligation1W.borrow_amount.round_u64 ∧
    repayResW.obligation.collateral_amount +
        repayResW.collateral_withdraw_amount =
      obligation1W.collateral_amount := by
  have h := C4_repay_amounts repayCtxW repayResW repayReserveW
    (Decimal.fromNat 1) obligation1W (by decide) (by decide) (by decide)
  exact ⟨by decide, h.1, h.2.2.2.1⟩

/-! ## Claim C2 -/

/-- A successful collateral-exchange-rate read forces the slot guard:
the reserve's borrow state was updated at the current slot. -/
theorem Reserve.exchange_rate_slot_eq {r : Reserve} {slot liq csup : Nat}
    {d : Decimal} (h : r.collateral_exchange_rate slot liq csup = .ok d) :
    r.borrow_state_update_slot = slot := by
  unfold Reserve.collateral_exchange_rate at h
  split at h
  · exact absurd h (by simp)
  · rename_i hcond
    exact not_not.mp hcond

/-- A successful collateral-to-liquidity conversion forces the slot
guard on the reserve it was read from. -/
theorem Reserve.collateral_to_liquidity_slot_eq {r : Reserve}
    {slot liq csup amt : Nat} {d : Decimal}
    (h : r.collateral_to_liquidity slot liq csup amt = .ok d) :
    r.borrow_state_update_slot = slot := by
  unfold Reserve.collateral_to_liquidity at h
  obtain ⟨e, he, h⟩ := exceptBind_ok h
  exact Reserve.exchange_rate_slot_eq he

/-- C2 (amended): a successful borrow never runs the cumulative-rate
update on the deposit reserve D — it prices the collateral through D's
stored state, which therefore must already sit at the current slot (a
stale D fails with InvalidInput, as the counterexample shows) — and the
order-book conversion of the resulting deposit amount likewise reads the
stored D; the update of section 4.3.2 runs only on the borrow reserve B,
after the borrow amount is computed but before the obligation is
written, and the cumulative borrow rate recorded in the new obligation
is B's post-update rate. -/
theorem C2_borrow_update_order_amended (c : BorrowCtx) (res : BorrowResult)
    (hrun : process_borrow c = .ok res) :
    c.deposit_reserve.borrow_state_update_slot = c.slot ∧
    (∃ dd, c.deposit_reserve.collateral_to_liquidity c.slot
        c.deposit_reserve_liquidity_supply_amount
        c.deposit_reserve_collateral_mint_supply c.collateral_amount =
          .ok dd ∧
      res.deposit_amount = dd.round_u64) ∧
    deposit_to_borrow res.deposit_amount c.dex_orders
      c.dex_market_quote_mint c.deposit_reserve = .ok res.borrow_amount ∧
    (∃ p : Reserve × Decimal,
      c.borrow_reserve.update_cumulative_rate c.slot
        c.borrow_reserve_liquidity_supply_amount = .ok p ∧
      res.obligation.cumulative_borrow_rate = p.2 ∧
      res.borrow_reserve = p.1.add_borrow (Decimal.fromNat res.borrow_amount) ∧
      res.obligation.borrow_amount = Decimal.fromNat res.borrow_amount ∧
      res.obligation.last_update_slot = c.slot) := by
  unfold process_borrow at hrun
  obtain ⟨g1, hrun⟩ := checkBind_ok hrun
  obtain ⟨g2, hrun⟩ := checkBind_ok hrun
  obtain ⟨g3, hrun⟩ := checkBind_ok hrun
  obtain ⟨dd, hdd, hrun⟩ := exceptBind_ok hrun
  obtain ⟨ba, hba, hrun⟩ := exceptBind_ok hrun
  obtain ⟨p, hp, hrun⟩ := exceptBind_ok hrun
  obtain ⟨b1, rate⟩ := p
  obtain ⟨g4, hrun⟩ := checkBind_ok hrun
  cases Except.ok.inj hrun
  exact ⟨Reserve.collateral_to_liquidity_slot_eq hdd,
    ⟨dd, hdd, rfl⟩, hba, ⟨(b1, rate), hp, rfl, rfl, rfl, rfl⟩⟩

/-- Counterexample to C2 as stated: with every reference valid but the
deposit reserve's borrow state last updated at slot 3 while the clock is
at slot 5, the source handler fails with InvalidInput, whereas the
claim's rendition — which first runs the cumulative-rate update on both
reserves — succeeds; so no update is run on the deposit reserve before
the borrow amount is computed. -/
theorem C2_counterexample :
    process_borrow borrowCtxCE = .error Err.invalidInput ∧
    process_borrow_claimC2 borrowCtxCE = .ok borrowResClaim := by
  exact ⟨by decide, by decide⟩

/-- Witness for the amended C2 at concrete inputs: the same borrow with
the deposit reserve already at the clock slot succeeds, and the recorded
obligation rate is the borrow reserve's post-update cumulative rate. -/
theorem C2_witness :
    process_borrow borrowCtxOK = .ok borrowResClaim ∧
    borrowCtxOK.deposit_reserve.borrow_state_update_slot =
      borrowCtxOK.slot := by
  refine ⟨by decide, ?_⟩
  exact (C2_borrow_update_order_amended borrowCtxOK borrowResClaim
    (by decide)).1

/-! ## Claim C1 -/

/-- The source fill loop, rounded at the end, computes exactly the
specification-style walk: same leaf selection, and each pass contributes
the raw value `fill * base * scaler / quote` to the accumulator. -/
theorem exchange_loop_eq_spec (orders : List OrderLeaf) (side : Side)
    (fill : Fill) :
    ∀ fuel input out,
      (exchange_loop orders side fill fuel input out).map Decimal.round_u64 =
        spec_fill_walk orders side fill.isBase fuel input out.raw := by
  have hscaler : 0 < scaler := by decide
  intro fuel
  induction fuel with
  | zero =>
    intro input out
    cases input <;> rfl
  | succ n ih =>
    intro input out
    cases input with
    | zero => rfl
    | succ m =>
      unfold exchange_loop spec_fill_walk
      cases hno : next_order orders side with
      | none =>
        cases fill <;>
          simp [hno, Bind.bind, Except.bind, Except.map, Fill.isBase]
      | some leaf =>
        cases fill with
        | base =>
          simp only [hno, Bind.bind, Except.bind, Fill.isBase, if_true,
            reduceCtorEq, reduceIte]
          by_cases hq : leaf.quantity = 0
          · simp [hq, Decimal.div, Decimal.fromNat, Decimal.mul, Except.map]
          · have hq' : ¬ (Decimal.fromNat leaf.quantity).raw = 0 := by
              simp [Decimal.fromNat, scaler, SCALE, hq]
            simp only [Decimal.div, hq', if_neg hq', if_neg hq, ite_false]
            rw [ih]
            congr 1
            simp only [Decimal.add, Decimal.mul, Decimal.fromNat]
            have h1 : scaler * min (m + 1) leaf.quantity *
                (scaler * (leaf.quantity * leaf.price % U64_MOD)) / scaler =
                scaler * (min (m + 1) leaf.quantity *
                  (leaf.quantity * leaf.price % U64_MOD)) := by
              rw [show scaler * min (m + 1) leaf.quantity *
                  (scaler * (leaf.quantity * leaf.price % U64_MOD)) =
                scaler * (scaler * (min (m + 1) leaf.quantity *
                  (leaf.quantity * leaf.price % U64_MOD))) by ring]
              exact Nat.mul_div_cancel_left _ hscaler
            rw [h1]
            rw [show scaler * (scaler * (min (m + 1) leaf.quantity *
                (leaf.quantity * leaf.price % U64_MOD))) =
              scaler * (scaler * (min (m + 1) leaf.quantity *
                (leaf.quantity * leaf.price % U64_MOD))) from rfl]
            rw [show scaler * leaf.quantity =
              scaler * leaf.quantity from rfl]
            rw [Nat.mul_div_mul_left _ _ hscaler]
            ring_nf
        | quote =>
          simp only [hno, Bind.bind, Except.bind, Fill.isBase,
            reduceCtorEq, reduceIte]
          by_cases hq : leaf.quantity * leaf.price % U64_MOD = 0
          · simp [hq, Decimal.div, Decimal.fromNat, Decimal.mul, Except.map]
          · have hq' :
                ¬ (Decimal.fromNat (leaf.quantity * leaf.price % U64_MOD)).raw
                  = 0 := by
              simp [Decimal.fromNat, scaler, SCALE, hq]
            simp only [Decimal.div, hq', if_neg hq', if_neg hq, ite_false]
            rw [ih]
            congr 1
            simp only [Decimal.add, Decimal.mul, Decimal.fromNat]
            have h1 : scaler * min (m + 1) (leaf.quantity * leaf.price %
                U64_MOD) * (scaler * leaf.quantity) / scaler =
                scaler * (min (m + 1) (leaf.quantity * leaf.price % U64_MOD) *
                  leaf.quantity) := by
              rw [show scaler * min (m + 1) (leaf.quantity * leaf.price %
                  U64_MOD) * (scaler * leaf.quantity) =
                scaler * (scaler * (min (m + 1) (leaf.quantity * leaf.price %
                  U64_MOD) * leaf.quantity)) by ring]
              exact Nat.mul_div_cancel_left _ hscaler
            rw [h1]
            rw [Nat.mul_div_mul_left _ _ hscaler]
            ring_nf

/-- C1 (amended): the order-book pricing of a borrow walks the BID side
converting quote units into base units when the deposit reserve's
liquidity mint equals the market's quote mint, and the ASK side
converting base units into quote units otherwise — the opposite mapping
to the one the claim states — with each pass consuming
`min(remaining, quote)` input units against the extremal leaf and
accumulating `fill * base / quote` as a Decimal (raw contribution
`fill * base * scaler / quote`, base and quote swapped in the
base-to-quote case) before a final truncating round. -/
theorem C1_side_selection_amended (deposit : Nat) (orders : List OrderLeaf)
    (qmint : Pubkey) (r : Reserve) :
    deposit_to_borrow deposit orders qmint r =
      if r.liquidity_mint = qmint then
        spec_fill_walk orders Side.bid false deposit deposit 0
      else
        spec_fill_walk orders Side.ask true deposit deposit 0 := by
  unfold deposit_to_borrow exchange_with_order_book
  by_cases hm : r.liquidity_mint = qmint
  · simp only [hm, ite_true]
    exact exchange_loop_eq_spec orders Side.bid Fill.quote deposit deposit
      (Decimal.fromNat 0)
  · simp only [hm, ite_false]
    exact exchange_loop_eq_spec orders Side.ask Fill.base deposit deposit
      (Decimal.fromNat 0)

/-- Counterexample to C1 as stated: on a book whose bid extremum is the
leaf (key 10, price 5, quantity 4) and whose ask extremum is the leaf
(key 1, price 2, quantity 3), a deposit of 20 units on a reserve whose
liquidity mint equals the market's quote mint fills to 4 — the BID side
converting quote into base — while the claim's ask-side base-to-quote
walk would produce 40. -/
theorem C1_counterexample :
    deposit_to_borrow 20 ordersC1 7 reserveQuoteC1 = .ok 4 ∧
    deposit_to_borrow_claimC1 20 ordersC1 7 reserveQuoteC1 = .ok 40 ∧
    deposit_to_borrow 20 ordersC1 7 reserveQuoteC1 ≠
      deposit_to_borrow_claimC1 20 ordersC1 7 reserveQuoteC1 := by
  exact ⟨by decide, by decide, by decide⟩

/-! ## Claim C7 -/

/-- C7: on an initialized transaction and proposal state, Execute fails
with TooEarlyToExecute while fewer than `delay_slots` slots have elapsed
since `voting_ended_at`; once the delay has passed, an already-executed
transaction fails with ProposalTransactionAlreadyExecuted; and a
successful execution marks the transaction executed, increments the
executed-transaction counter by one, and completes the proposal exactly
when that counter reaches `number_of_transactions`.  (The witness runs a
full success at exactly `voting_ended_at + delay_slots`.) -/
theorem C7_execute_guards (tx : CustomSingleSignerTransaction)
    (ps : ProposalState) (slot : Nat) (c : ExecuteChecks) :
    (c.inits_ok = true → ps.voting_ended_at ≤ slot →
      slot - ps.voting_ended_at < tx.delay_slots →
      process_execute tx ps slot c = .error Err.tooEarlyToExecute) ∧
    (c = allExecChecks → ps.voting_ended_at ≤ slot →
      ¬ slot - ps.voting_ended_at < tx.delay_slots →
      ps.status = ProposalStateStatus.executing → tx.executed = 1 →
      process_execute tx ps slot c = .error Err.alreadyExecuted) ∧
    (∀ res, process_execute tx ps slot c = .ok res →
      res.transaction.executed = 1 ∧
      res.transaction.delay_slots = tx.delay_slots ∧
      res.proposal_state.number_of_executed_transactions =
        ps.number_of_executed_transactions + 1 ∧
      (res.proposal_state.status = ProposalStateStatus.completed ↔
        ps.number_of_executed_transactions + 1 =
          ps.number_of_transactions)) := by
  refine ⟨?_, ?_, ?_⟩
  · intro hin hle hlt
    unfold process_execute
    simp [check, hin, checkedSubOr, Nat.not_lt.mpr hle, hlt, Bind.bind,
      Except.bind]
  · intro hc hle hge hst hex
    subst hc
    unfold process_execute
    simp [check, checkedSubOr, Nat.not_lt.mpr hle, hge, hst, hex, Bind.bind,
      Except.bind, allExecChecks]
  · intro res hrun
    unfold process_execute at hrun
    obtain ⟨g1, hrun⟩ := checkBind_ok hrun
    obtain ⟨te, hte, hrun⟩ := exceptBind_ok hrun
    obtain ⟨g2, hrun⟩ := checkBind_ok hrun
    obtain ⟨g3, hrun⟩ := checkBind_ok hrun
    obtain ⟨g4, hrun⟩ := checkBind_ok hrun
    obtain ⟨g5, hrun⟩ := checkBind_ok hrun
    obtain ⟨g6, hrun⟩ := checkBind_ok hrun
    obtain ⟨g7, hrun⟩ := checkBind_ok hrun
    obtain ⟨g8, hrun⟩ := checkBind_ok hrun
    obtain ⟨g9, hrun⟩ := checkBind_ok hrun
    obtain ⟨g10, hrun⟩ := checkBind_ok hrun
    obtain ⟨g11, hrun⟩ := checkBind_ok hrun
    cases Except.ok.inj hrun
    refine ⟨rfl, rfl, rfl, ?_⟩
    by_cases hn : ps.number_of_executed_transactions + 1 =
        ps.number_of_transactions
    · simp [hn]
    · simp only [hn, ite_false, iff_false]
      rw [g8]
      intro hcontra
      exact absurd hcontra (by simp)

/-- Witness for C7 at concrete inputs: with a 10-slot delay after voting
ended at slot 100, executing at slot 109 is too early, at slot 110 (the
exact boundary) it succeeds and completes the one-transaction proposal,
and re-executing an already-executed transaction at slot 110 fails. -/
theorem C7_witness :
    process_execute txC7 psC7 109 allExecChecks =
      .error Err.tooEarlyToExecute ∧
    process_execute { txC7 with executed := 1 } psC7 110 allExecChecks =
      .error Err.alreadyExecuted ∧
    process_execute txC7 psC7 110 allExecChecks = .ok execResC7 ∧
    execResC7.transaction.executed = 1 ∧
    execResC7.proposal_state.number_of_executed_transactions =
      psC7.number_of_executed_transactions + 1 ∧
    execResC7.proposal_state.status = ProposalStateStatus.completed := by
  have hs := (C7_execute_guards txC7 psC7 110 allExecChecks).2.2 execResC7
    (by decide)
  refine ⟨(C7_execute_guards txC7 psC7 109 allExecChecks).1 rfl (by decide)
      (by decide),
    (C7_execute_guards { txC7 with executed := 1 } psC7 110 allExecChecks).2.1
      rfl (by decide) (by decide) rfl rfl,
    by decide, hs.1, hs.2.2.1, hs.2.2.2.mpr (by decide)⟩

/-! ## Claim C8 -/

/-- C8 (amended): a vote that tips the consensus rule while the proposal
is in Voting packs the set with status Executing, but leaves
`voting_ended_at` unchanged — the handler reads no clock at all, so the
current slot is never recorded. -/
theorem C8_vote_tip_amended (c : VoteCtx) (res : VoteResult)
    (hrun : process_vote c = .ok res)
    (htip : vote_tipped c.config.consensus_algorithm
      (vote_now_remaining_in_no_column c) (vote_total_ever_existed c) =
        true) :
    res.timelock_set.state.status = TimelockStateStatus.executing ∧
    res.timelock_set.state.voting_ended_at =
      c.timelock_set.state.voting_ended_at := by
  unfold process_vote at hrun
  obtain ⟨g1, hrun⟩ := checkBind_ok hrun
  obtain ⟨g2, hrun⟩ := checkBind_ok hrun
  obtain ⟨g3, hrun⟩ := checkBind_ok hrun
  obtain ⟨g4, hrun⟩ := checkBind_ok hrun
  obtain ⟨g5, hrun⟩ := checkBind_ok hrun
  obtain ⟨g6, hrun⟩ := checkBind_ok hrun
  cases Except.ok.inj hrun
  constructor <;> simp [htip]

/-- Counterexample to C8 as stated: a tipping majority vote (60 yes of a
100-token governance supply) cast while the clock stands at slot 42
persists status Executing but leaves `voting_ended_at` at its prior
value 0, not the current slot — `process_vote` takes no clock account. -/
theorem C8_counterexample :
    process_vote voteCtxC8 = .ok voteResC8 ∧
    vote_tipped voteCtxC8.config.consensus_algorithm
      (vote_now_remaining_in_no_column voteCtxC8)
      (vote_total_ever_existed voteCtxC8) = true ∧
    voteResC8.timelock_set.state.status = TimelockStateStatus.executing ∧
    voteResC8.timelock_set.state.voting_ended_at ≠ 42 := by
  exact ⟨by decide, by decide, by decide, by decide⟩

/-- Witness for the amended C8 at the concrete tipping vote. -/
theorem C8_witness :
    voteResC8.timelock_set.state.status = TimelockStateStatus.executing ∧
    voteResC8.timelock_set.state.voting_ended_at =
      voteCtxC8.timelock_set.state.voting_ended_at :=
  C8_vote_tip_amended voteCtxC8 voteResC8 (by decide) (by decide)
